import Mathlib

/-!
Shallow embedding of the agent rendering layer of `dye-my-shell`
(`src/dye/agents/base.py`, `gnu_ls.py`, `eza.py`, `fzf.py`, `iterm.py`),
together with the parts of the `rich` style/color library those agents
call into (`rich.style.Style.render`, `rich.color.Color.get_ansi_codes`,
`rich.color.Color.get_truecolor`).  Machine integers are `Nat`; fallible
code returns `Except DyeFailure`; Python dictionaries are association
lists looked up by first match (the dictionaries in play never repeat a
key).
-/

namespace Dye

/-- Resolved color value of the style model (`rich.color.Color`, restricted
to the variants the configuration resolver produces: the spec names
`Default`, `Standard(0-15)`, `Extended(0-255)` and `TrueColor(r,g,b)`). -/
inductive Color where
  | default
  | standard (n : Nat)
  | eightBit (n : Nat)
  | truecolor (r g b : Nat)
deriving Repr, DecidableEq

/-- Resolved style value (`rich.style.Style` as the agents consume it: a
foreground color, an optional background color and the six boolean text
attributes of the spec's data model). -/
structure Style where
  color : Option Color := none
  bgcolor : Option Color := none
  bold : Bool := false
  dim : Bool := false
  italic : Bool := false
  underline : Bool := false
  reverse : Bool := false
  strike : Bool := false
deriving Repr, DecidableEq

/-- Python truthiness of a style (`rich.style.Style.__bool__`): a style is
falsy exactly when it has no colors and no attributes ("empty" in the
spec's data model). -/
def Style.truthy (s : Style) : Bool :=
  s.color.isSome || s.bgcolor.isSome ||
    s.bold || s.dim || s.italic || s.underline || s.reverse || s.strike

/-- Decimal form of a natural number, the model of Python `str(n)`. -/
def natStr (n : Nat) : String :=
  Nat.repr n

/-- Python `sep.join(parts)`. -/
def pyJoin (sep : String) : List String → String
  | [] => ""
  | [x] => x
  | x :: y :: rest => x ++ sep ++ pyJoin sep (y :: rest)

/-- ANSI SGR parameter strings of a color (`rich.color.Color.get_ansi_codes`;
the agents render with the truecolor color system, under which
`Color.downgrade` is the identity, so no downgrade appears here). -/
def Color.getAnsiCodes (c : Color) (foreground : Bool) : List String :=
  match c with
  | .default => [if foreground then "39" else "49"]
  | .standard n =>
      if n < 8 then [natStr ((if foreground then 30 else 40) + n)]
      else [natStr ((if foreground then 82 else 92) + n)]
  | .eightBit n => [if foreground then "38" else "48", "5", natStr n]
  | .truecolor r g b =>
      [if foreground then "38" else "48", "2", natStr r, natStr g, natStr b]

/-- SGR attribute tokens of a style in the emission order of
`rich.style.Style._make_ansi_codes` (bit order: bold, dim, italic,
underline, reverse, strike for the attributes of our style model). -/
def Style.attrCodes (s : Style) : List String :=
  (if s.bold then ["1"] else []) ++
  (if s.dim then ["2"] else []) ++
  (if s.italic then ["3"] else []) ++
  (if s.underline then ["4"] else []) ++
  (if s.reverse then ["7"] else []) ++
  (if s.strike then ["9"] else [])

/-- Semicolon-joined SGR parameter string of a style
(`rich.style.Style._make_ansi_codes` at the truecolor color system):
attribute codes, then foreground color codes, then background color
codes. -/
def Style.makeAnsiCodes (s : Style) : String :=
  pyJoin ";" (s.attrCodes ++
    (match s.color with | some c => c.getAnsiCodes true | none => []) ++
    (match s.bgcolor with | some c => c.getAnsiCodes false | none => []))

/-- Styled rendering of a text (`rich.style.Style.render` with the default
truecolor color system and no link): the text wrapped in an SGR escape
sequence, or the bare text when there are no codes. -/
def Style.render (s : Style) (text : String) : String :=
  let attrs := s.makeAnsiCodes
  if attrs = "" then text
  else "\x1b[" ++ attrs ++ "m" ++ text ++ "\x1b[0m"

/-- Character class of Python's regex `[;\d]` over the rendered codes. -/
def isDigitOrSemi (c : Char) : Bool :=
  c.isDigit || c == ';'

/-- Model of `re.match(r"^\x1b\[([;\d]*)m", s)` followed by `.group(1)`:
the group is the greedy run of digits/semicolons after the CSI opener,
and the match requires a literal `m` right after the run (equivalent to
the backtracking semantics, because no character of the class is `m`). -/
def sgrPrefixCore : List Char → Option (List Char)
  | c1 :: c2 :: rest =>
      if c1 = '\x1b' ∧ c2 = '[' then
        let code := rest.takeWhile isDigitOrSemi
        match rest.drop code.length with
        | c3 :: _ => if c3 = 'm' then some code else none
        | [] => none
      else none
  | _ => none

/-- String form of the regex extraction used by `ls_colors_from_style`. -/
def extractSGR (s : String) : Option String :=
  (sgrPrefixCore s.data).map (fun cs => String.mk cs)

/-- Failure modes of an agent run: the two exception classes the agents
raise (`DyeError`, `DyeSyntaxError` from `dye.exceptions`), the Python
`AttributeError` that escapes when `None` is dereferenced, and the
Python `TypeError` that escapes when an unhashable value reaches a
dictionary membership test. -/
inductive DyeFailure where
  | dyeError (msg : String)
  | dyeSyntaxError (msg : String)
  | attributeError
  | typeError
deriving Repr, DecidableEq

/-- Modelled from the spec: the module `src/dye/exceptions.py` that
declares the exception classes is not part of the given sources; §7 of
the spec defines a single error kind "SyntaxError" for this layer and
lists under it the wrong `clear_builtin` type, the unrecognized cursor
value and the unknown style name in a disallow-unknown context — the
sites that raise `DyeSyntaxError` and `DyeError`.  Both classes are
therefore the spec's SyntaxError; the escaped `AttributeError` and
`TypeError` are not. -/
def DyeFailure.isSpecSyntaxError : DyeFailure → Bool
  | .dyeError _ => true
  | .dyeSyntaxError _ => true
  | .attributeError => false
  | .typeError => false

/-- Shared style-to-code helper
(`LsColorsFromStyle.ls_colors_from_style` in `agents/base.py`): resolve
the entry name through the friendly-name map, then turn the style into
its `name=codes` fragment.  A falsy (empty/absent) style produces the
empty pair; an unresolvable name raises `DyeError` unless unknown names
are allowed; a default foreground renders as the literal code `0`;
otherwise the codes are peeled out of the escape sequence produced by
`Style.render`.  Dereferencing `style.color.type` when the style has no
foreground color escapes as an `AttributeError`. -/
def ls_colors_from_style (name : String) (style : Option Style)
    (mapp : List (String × String)) (scope_name : String)
    (allow_unknown : Bool) : Except DyeFailure (String × String) :=
  match style with
  | none => .ok ("", "")
  | some s =>
    if s.truthy = false then .ok ("", "")
    else
      let resolved : Except DyeFailure String :=
        match mapp.lookup name with
        | some mapname => .ok mapname
        | none =>
            if allow_unknown then .ok name
            else .error (.dyeError
              ("unknown style '" ++ name ++ "' while processing scope '" ++
                scope_name ++ "'"))
      match resolved with
      | .error e => .error e
      | .ok mapname =>
        match s.color with
        | none => .error .attributeError
        | some c =>
          if c = Color.default then .ok (mapname, mapname ++ "=0")
          else
            match extractSGR (s.render "-----") with
            | some ansicodes => .ok (mapname, mapname ++ "=" ++ ansicodes)
            | none => .error .attributeError

/-- Configuration values a scope's `definition` mapping can hold (the
TOML-typed values the agents inspect: strings, booleans, integers and
nested tables). -/
inductive ConfigValue where
  | str (s : String)
  | bool (b : Bool)
  | int (n : Int)
  | table (kvs : List (String × ConfigValue))
deriving Repr

/-- Python truthiness of a configuration value. -/
def ConfigValue.truthy : ConfigValue → Bool
  | .str s => s ≠ ""
  | .bool b => b
  | .int n => n ≠ 0
  | .table kvs => !kvs.isEmpty

mutual

/-- Python `repr` of a configuration value (string-escaping inside `repr`
of a string is elided — no agent ever feeds a table or a quoted string
into an f-string on the paths the claims exercise). -/
def ConfigValue.reprStr : ConfigValue → String
  | .str s => "'" ++ s ++ "'"
  | .bool b => if b then "True" else "False"
  | .int n => toString n
  | .table kvs => "\x7b" ++ pyJoin ", " (reprKVs kvs) ++ "\x7d"

/-- Python `repr` of the entries of a table value. -/
def reprKVs : List (String × ConfigValue) → List String
  | [] => []
  | (k, v) :: rest => ("'" ++ k ++ "': " ++ ConfigValue.reprStr v) :: reprKVs rest

end

/-- Python `str` of a configuration value, as an f-string renders it. -/
def ConfigValue.toStr : ConfigValue → String
  | .str s => s
  | .bool b => if b then "True" else "False"
  | .int n => toString n
  | .table kvs => ConfigValue.reprStr (.table kvs)

/-- Scope: the unit of configuration one agent invocation consumes — a
name, the free-form `definition` mapping and the resolved styles in
declaration order (the collaborator object the out-of-scope resolver
hands to the agents). -/
structure Scope where
  name : String
  definition : List (String × ConfigValue)
  styles : List (String × Style)

/-- Modelled from the spec: the scope class itself lives outside the
given sources, and the agents interpolate the scope object into their
error messages with `f"...{self.scope}..."`; §7 says those diagnostics
carry the scope name, so the scope's string form is its name. -/
def Scope.toStr (s : Scope) : String :=
  s.name

/-- Lookup of a configuration key (`self.scope.definition[key]`, with
`none` for the `KeyError` case). -/
def Scope.lookupDef (s : Scope) (key : String) : Option ConfigValue :=
  s.definition.lookup key

/-- Lookup of a named style (`self.scope.styles[name]`). -/
def Scope.lookupStyle (s : Scope) (name : String) : Option Style :=
  s.styles.lookup name

/-- Building of the two-way friendly/native map from a base map: the
Python loop `MAP[friendly] = actual; MAP[actual] = actual` in dictionary
insertion order (all keys involved are distinct, so first-match lookup
agrees with the dictionary). -/
def mkBothMap : List (String × String) → List (String × String)
  | [] => []
  | (friendly, actual) :: rest =>
      (friendly, actual) :: (actual, actual) :: mkBothMap rest

namespace GnuLs

/-- Friendly-name base map of the GNU ls agent
(`GnuLs.LS_COLORS_BASE_MAP`). -/
def LS_COLORS_BASE_MAP : List (String × String) := [
  ("text", "no"),
  ("file", "fi"),
  ("directory", "di"),
  ("symlink", "ln"),
  ("multi_hard_link", "mh"),
  ("pipe", "pi"),
  ("socket", "so"),
  ("door", "do"),
  ("block_device", "bd"),
  ("character_device", "cd"),
  ("broken_symlink", "or"),
  ("missing_symlink_target", "mi"),
  ("setuid", "su"),
  ("setgid", "sg"),
  ("sticky", "st"),
  ("other_writable", "ow"),
  ("sticky_other_writable", "tw"),
  ("executable_file", "ex"),
  ("file_with_capability", "ca")]

/-- Two-way lookup map of the GNU ls agent (`GnuLs.LS_COLORS_MAP`). -/
def LS_COLORS_MAP : List (String × String) :=
  mkBothMap LS_COLORS_BASE_MAP

/-- Reading of the `clear_builtin` configuration key by `GnuLs.run`:
absent means false, a non-boolean value raises `DyeSyntaxError`. -/
def clearBuiltin (scope : Scope) : Except DyeFailure Bool :=
  match scope.lookupDef "clear_builtin" with
  | none => .ok false
  | some (.bool b) => .ok b
  | some _ => .error (.dyeSyntaxError
      ("scope '" ++ scope.toStr ++ "' requires 'clear_builtin' to be true or false"))

/-- User-style loop of `GnuLs.run`: every truthy style is rendered with
`allow_unknown=False`; the produced `(mapcode, fragment)` pairs are the
source's parallel `havecodes`/`outlist` entries. -/
def userPairs (styles : List (String × Style)) (scopeName : String) :
    Except DyeFailure (List (String × String)) :=
  match styles with
  | [] => .ok []
  | (name, style) :: rest =>
      if style.truthy then
        match ls_colors_from_style name (some style) LS_COLORS_MAP scopeName false with
        | .error e => .error e
        | .ok pair =>
            match userPairs rest scopeName with
            | .error e => .error e
            | .ok tail => .ok (pair :: tail)
      else userPairs rest scopeName

/-- Neutral style `rich.style.Style.parse("default")` used by the
clear-builtin pass: a default foreground and nothing else. -/
def defaultStyle : Style :=
  { color := some Color.default }

/-- Clear-builtin pass of `GnuLs.run` over a tail of the base map: every
built-in entry whose code is not already covered is re-rendered with the
neutral style (the source keeps only the fragment; the pair keeps the
mapped code alongside it, which the fragment determines). -/
def neutralPairs (havecodes : List String) (scope : Scope) :
    List (String × String) → Except DyeFailure (List (String × String))
  | [] => .ok []
  | (name, code) :: rest =>
      if havecodes.contains code then neutralPairs havecodes scope rest
      else
        match ls_colors_from_style name (some defaultStyle) LS_COLORS_MAP
            scope.toStr false with
        | .error e => .error e
        | .ok pair =>
            match neutralPairs havecodes scope rest with
            | .error e => .error e
            | .ok tail => .ok (pair :: tail)

/-- Fragment pairs assembled by `GnuLs.run`: the user fragments followed,
when `clear_builtin` is true, by the neutral fragments. -/
def fragments (scope : Scope) : Except DyeFailure (List (String × String)) :=
  match clearBuiltin scope with
  | .error e => .error e
  | .ok cb =>
      match userPairs scope.styles scope.name with
      | .error e => .error e
      | .ok ups =>
          if cb then
            match neutralPairs (ups.map Prod.fst) scope LS_COLORS_BASE_MAP with
            | .error e => .error e
            | .ok nps => .ok (ups ++ nps)
          else .ok ups

/-- Environment variable the GNU ls agent exports into
(`environment_variable` key, defaulting to `LS_COLORS`). -/
def varname (scope : Scope) : String :=
  match scope.lookupDef "environment_variable" with
  | some v => v.toStr
  | none => "LS_COLORS"

/-- The GNU ls agent (`GnuLs.run`): the export statement joining all
fragments with `:`, emitted even when the fragment list is empty. -/
def run (scope : Scope) : Except DyeFailure String :=
  match fragments scope with
  | .error e => .error e
  | .ok pairs =>
      .ok ("export " ++ varname scope ++ "=\"" ++
        pyJoin ":" (pairs.map Prod.snd) ++ "\"")

end GnuLs

namespace Eza

/-- Friendly-name base map of the eza agent (`Eza.EZA_COLORS_BASE_MAP`). -/
def EZA_COLORS_BASE_MAP : List (String × String) := [
  ("filekinds:normal", "fi"),
  ("filekinds:directory", "di"),
  ("filekinds:symlink", "ln"),
  ("filekinds:pipe", "pi"),
  ("filekinds:block_device", "bd"),
  ("filekinds:char_device", "cd"),
  ("filekinds:socket", "so"),
  ("filekinds:special", "sp"),
  ("filekinds:executable", "ex"),
  ("filekinds:mount_point", "mp"),
  ("perms:user_read", "ur"),
  ("perms:user_write", "uw"),
  ("perms:user_executable_file", "ux"),
  ("perms:user_execute_other", "ue"),
  ("perms:group_read", "gr"),
  ("perms:group_write", "gw"),
  ("perms:group_execute", "gx"),
  ("perms:other_read", "tr"),
  ("perms:other_write", "tw"),
  ("perms:other_execute", "tx"),
  ("perms:special_user_file", "su"),
  ("perms:special_other", "sf"),
  ("perms:attribute", "xa"),
  ("size:major", "df"),
  ("size:minor", "ds"),
  ("size:number_style", "sn"),
  ("size:number_byte", "nb"),
  ("size:number_kilo", "nk"),
  ("size:number_mega", "nm"),
  ("size:number_giga", "ng"),
  ("size:number_huge", "nt"),
  ("size:unit_style", "sb"),
  ("size:unit_byte", "ub"),
  ("size:unit_kilo", "uk"),
  ("size:unit_mega", "um"),
  ("size:unit_giga", "ug"),
  ("size:unit_huge", "ut"),
  ("users:user_you", "uu"),
  ("users:user_other", "un"),
  ("users:user_root", "uR"),
  ("users:group_yours", "gu"),
  ("users:group_other", "gn"),
  ("users:group_root", "gR"),
  ("links:normal", "lc"),
  ("links:multi_link_file", "lm"),
  ("git:new", "ga"),
  ("git:modified", "gm"),
  ("git:deleted", "gd"),
  ("git:renamed", "gv"),
  ("git:typechange", "gt"),
  ("git:ignored", "gi"),
  ("git:conflicted", "gc"),
  ("git_repo:branch_main", "Gm"),
  ("git_repo:branch_other", "Go"),
  ("git_repo:git_clean", "Gc"),
  ("git_repo:git_dirty", "Gd"),
  ("selinux:colon", "Sn"),
  ("selinux:user", "Su"),
  ("selinux:role", "Sr"),
  ("selinux:typ", "St"),
  ("selinux:range", "Sl"),
  ("file_type:image", "im"),
  ("file_type:video", "vi"),
  ("file_type:music", "mu"),
  ("file_type:lossless", "lo"),
  ("file_type:crypto", "cr"),
  ("file_type:document", "do"),
  ("file_type:compressed", "co"),
  ("file_type:temp", "tm"),
  ("file_type:compiled", "cm"),
  ("file_type:build", "bu"),
  ("file_type:source", "sc"),
  ("punctuation", "xx"),
  ("date", "da"),
  ("inode", "in"),
  ("blocks", "bl"),
  ("header", "hd"),
  ("octal", "oc"),
  ("flags", "ff"),
  ("symlink_path", "lp"),
  ("control_char", "cc"),
  ("broken_path_overlay", "b0"),
  ("broken_symlink", "or")]

/-- Two-way lookup map of the eza agent (`Eza.EZA_COLORS_MAP`). -/
def EZA_COLORS_MAP : List (String × String) :=
  mkBothMap EZA_COLORS_BASE_MAP

/-- Reading of `clear_builtin` by `Eza.run`: the lookup sits inside
`contextlib.suppress(KeyError)`, so an absent key contributes nothing; a
non-boolean value raises `DyeSyntaxError`; `true` contributes the
literal token `reset` to the output list. -/
def resetTokens (scope : Scope) : Except DyeFailure (List String) :=
  match scope.lookupDef "clear_builtin" with
  | none => .ok []
  | some (.bool b) => .ok (if b then ["reset"] else [])
  | some _ => .error (.dyeSyntaxError
      ("scope '" ++ scope.toStr ++ "' requires 'clear_builtin' to be true or false"))

/-- Style loop of `Eza.run`: every truthy style is rendered through the
shared helper with `allow_unknown=True` and `scope_name` bound to the
scope object itself. -/
def styleFragments (scope : Scope) : List (String × Style) → Except DyeFailure (List String)
  | [] => .ok []
  | (name, style) :: rest =>
      if style.truthy then
        match ls_colors_from_style name (some style) EZA_COLORS_MAP scope.toStr true with
        | .error e => .error e
        | .ok pair =>
            match styleFragments scope rest with
            | .error e => .error e
            | .ok tail => .ok (pair.2 :: tail)
      else styleFragments scope rest

/-- Output list of `Eza.run`: the optional `reset` token followed by the
rendered style fragments. -/
def outlist (scope : Scope) : Except DyeFailure (List String) :=
  match resetTokens scope with
  | .error e => .error e
  | .ok pre =>
      match styleFragments scope scope.styles with
      | .error e => .error e
      | .ok frags => .ok (pre ++ frags)

/-- Environment variable the eza agent exports into (default
`EZA_COLORS`). -/
def varname (scope : Scope) : String :=
  match scope.lookupDef "environment_variable" with
  | some v => v.toStr
  | none => "EZA_COLORS"

/-- The eza agent (`Eza.run`): the export statement joining the output
list with `:`, emitted even when the list is empty. -/
def run (scope : Scope) : Except DyeFailure String :=
  match outlist scope with
  | .error e => .error e
  | .ok out =>
      .ok ("export " ++ varname scope ++ "=\"" ++ pyJoin ":" out ++ "\"")

end Eza

/-- Lowercase hexadecimal digit. -/
def hexDigit (n : Nat) : Char :=
  if n < 10 then Char.ofNat (48 + n) else Char.ofNat (87 + n)

/-- Python `"%02x" % n` for a color channel in `0-255`. -/
def hex2 (n : Nat) : String :=
  String.mk [hexDigit ((n / 16) % 16), hexDigit (n % 16)]

/-- Hex form `#rrggbb` of a color triplet (`rich.color_triplet.ColorTriplet.hex`). -/
def tripletHex (r g b : Nat) : String :=
  "#" ++ hex2 r ++ hex2 g ++ hex2 b

namespace Fzf

/-- Paired foreground/background target keys of the four special fzf
names (the `name_map` of `Fzf._fzf_from_style`). -/
def name_map : List (String × (String × String)) := [
  ("text", ("fg", "bg")),
  ("current-line", ("fg+", "bg+")),
  ("selected-line", ("selected-fg", "selected-bg")),
  ("preview", ("preview-fg", "preview-bg"))]

/-- Fzf encoding of a color (`Fzf._fzf_color_from_rich_color`):
default is `-1`, palette colors are their decimal index, truecolor is
`#rrggbb`. -/
def fzf_color_from_rich_color : Color → String
  | .default => "-1"
  | .standard n => natStr n
  | .eightBit n => natStr n
  | .truecolor r g b => tripletHex r g b

/-- Fzf attribute encoding (`Fzf._fzf_attribs_from_style`): starts at
`regular`, then appends tokens in the fixed order bold, underline,
reverse, dim, italic, strikethrough. -/
def fzf_attribs_from_style (s : Style) : String :=
  let a := "regular"
  let a := if s.bold then a ++ ":bold" else a
  let a := if s.underline then a ++ ":underline" else a
  let a := if s.reverse then a ++ ":reverse" else a
  let a := if s.dim then a ++ ":dim" else a
  let a := if s.italic then a ++ ":italic" else a
  let a := if s.strike then a ++ ":strikethrough" else a
  a

/-- Fzf color clause of one named style (`Fzf._fzf_from_style`): paired
keys for the four special names, otherwise the name itself keyed to the
foreground only. -/
def fzf_from_style (name : String) (style : Style) : String :=
  match name_map.lookup name with
  | some (fgname, bgname) =>
      let fgPart :=
        match style.color with
        | some c => [fgname ++ ":" ++ fzf_color_from_rich_color c ++ ":" ++
            fzf_attribs_from_style style]
        | none => []
      let bgPart :=
        match style.bgcolor with
        | some c => [bgname ++ ":" ++ fzf_color_from_rich_color c]
        | none => []
      pyJoin "," (fgPart ++ bgPart)
  | none =>
      match style.color with
      | some c => pyJoin "," [name ++ ":" ++ fzf_color_from_rich_color c ++ ":" ++
          fzf_attribs_from_style style]
      | none => pyJoin "," []

/-- Options string of `Fzf.run`: string values append ` key='value'`,
boolean true appends ` key`, anything else appends nothing.  Reading a
present non-table `opts` value dies with an `AttributeError` when the
loop asks it for `.items()`. -/
def optsString (kvs : List (String × ConfigValue)) : String :=
  match kvs with
  | [] => ""
  | (key, .str v) :: rest => " " ++ key ++ "='" ++ v ++ "'" ++ optsString rest
  | (key, .bool true) :: rest => " " ++ key ++ optsString rest
  | (_, _) :: rest => optsString rest

/-- The `opts` configuration mapping of `Fzf.run` (default empty). -/
def optsOf (scope : Scope) : Except DyeFailure (List (String × ConfigValue)) :=
  match scope.lookupDef "opts" with
  | none => .ok []
  | some (.table kvs) => .ok kvs
  | some _ => .error .attributeError

/-- Color clauses of all styles of the scope, in declaration order (the
`colors` list of `Fzf.run`; empty clauses stay in the list). -/
def colorClauses (scope : Scope) : List String :=
  scope.styles.map (fun ns => fzf_from_style ns.1 ns.2)

/-- The `colorbase` prefix of `Fzf.run`: the configured value with a
trailing comma, or empty when the key is absent. -/
def colorbase (scope : Scope) : String :=
  match scope.lookupDef "colorbase" with
  | some v => v.toStr ++ ","
  | none => ""

/-- The ` --color='...'` argument of `Fzf.run`: present exactly when the
colorbase string or the clause list is truthy, and otherwise empty. -/
def colorString (scope : Scope) : String :=
  if colorbase scope ≠ "" ∨ colorClauses scope ≠ [] then
    " --color='" ++ colorbase scope ++ pyJoin "," (colorClauses scope) ++ "'"
  else ""

/-- Environment variable the fzf agent exports into (default
`FZF_DEFAULT_OPTS`). -/
def varname (scope : Scope) : String :=
  match scope.lookupDef "environment_variable" with
  | some v => v.toStr
  | none => "FZF_DEFAULT_OPTS"

/-- The fzf agent (`Fzf.run`): one export statement concatenating the
options string and the color string. -/
def run (scope : Scope) : Except DyeFailure String :=
  match optsOf scope with
  | .error e => .error e
  | .ok kvs =>
      .ok ("export " ++ varname scope ++ "=\"" ++ optsString kvs ++
        colorString scope ++ "\"")

end Fzf

namespace Iterm

/-- The 256-color terminal palette (`rich._palettes.EIGHT_BIT_PALETTE`),
which `rich.color.Color.get_truecolor` consults for `eightBit` colors. -/
def EIGHT_BIT_PALETTE : List (Nat × Nat × Nat) := [
  (0, 0, 0), (128, 0, 0), (0, 128, 0), (128, 128, 0),
  (0, 0, 128), (128, 0, 128), (0, 128, 128), (192, 192, 192),
  (128, 128, 128), (255, 0, 0), (0, 255, 0), (255, 255, 0),
  (0, 0, 255), (255, 0, 255), (0, 255, 255), (255, 255, 255),
  (0, 0, 0), (0, 0, 95), (0, 0, 135), (0, 0, 175),
  (0, 0, 215), (0, 0, 255), (0, 95, 0), (0, 95, 95),
  (0, 95, 135), (0, 95, 175), (0, 95, 215), (0, 95, 255),
  (0, 135, 0), (0, 135, 95), (0, 135, 135), (0, 135, 175),
  (0, 135, 215), (0, 135, 255), (0, 175, 0), (0, 175, 95),
  (0, 175, 135), (0, 175, 175), (0, 175, 215), (0, 175, 255),
  (0, 215, 0), (0, 215, 95), (0, 215, 135), (0, 215, 175),
  (0, 215, 215), (0, 215, 255), (0, 255, 0), (0, 255, 95),
  (0, 255, 135), (0, 255, 175), (0, 255, 215), (0, 255, 255),
  (95, 0, 0), (95, 0, 95), (95, 0, 135), (95, 0, 175),
  (95, 0, 215), (95, 0, 255), (95, 95, 0), (95, 95, 95),
  (95, 95, 135), (95, 95, 175), (95, 95, 215), (95, 95, 255),
  (95, 135, 0), (95, 135, 95), (95, 135, 135), (95, 135, 175),
  (95, 135, 215), (95, 135, 255), (95, 175, 0), (95, 175, 95),
  (95, 175, 135), (95, 175, 175), (95, 175, 215), (95, 175, 255),
  (95, 215, 0), (95, 215, 95), (95, 215, 135), (95, 215, 175),
  (95, 215, 215), (95, 215, 255), (95, 255, 0), (95, 255, 95),
  (95, 255, 135), (95, 255, 175), (95, 255, 215), (95, 255, 255),
  (135, 0, 0), (135, 0, 95), (135, 0, 135), (135, 0, 175),
  (135, 0, 215), (135, 0, 255), (135, 95, 0), (135, 95, 95),
  (135, 95, 135), (135, 95, 175), (135, 95, 215), (135, 95, 255),
  (135, 135, 0), (135, 135, 95), (135, 135, 135), (135, 135, 175),
  (135, 135, 215), (135, 135, 255), (135, 175, 0), (135, 175, 95),
  (135, 175, 135), (135, 175, 175), (135, 175, 215), (135, 175, 255),
  (135, 215, 0), (135, 215, 95), (135, 215, 135), (135, 215, 175),
  (135, 215, 215), (135, 215, 255), (135, 255, 0), (135, 255, 95),
  (135, 255, 135), (135, 255, 175), (135, 255, 215), (135, 255, 255),
  (175, 0, 0), (175, 0, 95), (175, 0, 135), (175, 0, 175),
  (175, 0, 215), (175, 0, 255), (175, 95, 0), (175, 95, 95),
  (175, 95, 135), (175, 95, 175), (175, 95, 215), (175, 95, 255),
  (175, 135, 0), (175, 135, 95), (175, 135, 135), (175, 135, 175),
  (175, 135, 215), (175, 135, 255), (175, 175, 0), (175, 175, 95),
  (175, 175, 135), (175, 175, 175), (175, 175, 215), (175, 175, 255),
  (175, 215, 0), (175, 215, 95), (175, 215, 135), (175, 215, 175),
  (175, 215, 215), (175, 215, 255), (175, 255, 0), (175, 255, 95),
  (175, 255, 135), (175, 255, 175), (175, 255, 215), (175, 255, 255),
  (215, 0, 0), (215, 0, 95), (215, 0, 135), (215, 0, 175),
  (215, 0, 215), (215, 0, 255), (215, 95, 0), (215, 95, 95),
  (215, 95, 135), (215, 95, 175), (215, 95, 215), (215, 95, 255),
  (215, 135, 0), (215, 135, 95), (215, 135, 135), (215, 135, 175),
  (215, 135, 215), (215, 135, 255), (215, 175, 0), (215, 175, 95),
  (215, 175, 135), (215, 175, 175), (215, 175, 215), (215, 175, 255),
  (215, 215, 0), (215, 215, 95), (215, 215, 135), (215, 215, 175),
  (215, 215, 215), (215, 215, 255), (215, 255, 0), (215, 255, 95),
  (215, 255, 135), (215, 255, 175), (215, 255, 215), (215, 255, 255),
  (255, 0, 0), (255, 0, 95), (255, 0, 135), (255, 0, 175),
  (255, 0, 215), (255, 0, 255), (255, 95, 0), (255, 95, 95),
  (255, 95, 135), (255, 95, 175), (255, 95, 215), (255, 95, 255),
  (255, 135, 0), (255, 135, 95), (255, 135, 135), (255, 135, 175),
  (255, 135, 215), (255, 135, 255), (255, 175, 0), (255, 175, 95),
  (255, 175, 135), (255, 175, 175), (255, 175, 215), (255, 175, 255),
  (255, 215, 0), (255, 215, 95), (255, 215, 135), (255, 215, 175),
  (255, 215, 215), (255, 215, 255), (255, 255, 0), (255, 255, 95),
  (255, 255, 135), (255, 255, 175), (255, 255, 215), (255, 255, 255),
  (8, 8, 8), (18, 18, 18), (28, 28, 28), (38, 38, 38),
  (48, 48, 48), (58, 58, 58), (68, 68, 68), (78, 78, 78),
  (88, 88, 88), (98, 98, 98), (108, 108, 108), (118, 118, 118),
  (128, 128, 128), (138, 138, 138), (148, 148, 148), (158, 158, 158),
  (168, 168, 168), (178, 178, 178), (188, 188, 188), (198, 198, 198),
  (208, 208, 208), (218, 218, 218), (228, 228, 228), (238, 238, 238)]

/-- The 16 ansi colors of `rich.terminal_theme.DEFAULT_TERMINAL_THEME`,
which `get_truecolor` consults for `standard` colors. -/
def DEFAULT_ANSI_COLORS : List (Nat × Nat × Nat) := [
  (0, 0, 0), (128, 0, 0), (0, 128, 0), (128, 128, 0),
  (0, 0, 128), (128, 0, 128), (0, 128, 128), (192, 192, 192),
  (128, 128, 128), (255, 0, 0), (0, 255, 0), (255, 255, 0),
  (0, 0, 255), (255, 0, 255), (0, 255, 255), (255, 255, 255)]

/-- RGB triplet of a color (`rich.color.Color.get_truecolor` with the
default terminal theme, as a foreground color).  An out-of-range palette
index is clamped to black; the configuration resolver never produces
one (standard is 0-15, extended 0-255). -/
def getTruecolor : Color → Nat × Nat × Nat
  | .truecolor r g b => (r, g, b)
  | .eightBit n => (EIGHT_BIT_PALETTE.getD n (0, 0, 0))
  | .standard n => (DEFAULT_ANSI_COLORS.getD n (0, 0, 0))
  | .default => (0, 0, 0)

/-- Profile step of `Iterm.run` (`Iterm._iterm_profile`): a `SetProfile`
escape when the `profile` key is present. -/
def profileCmds (scope : Scope) : List String :=
  match scope.lookupDef "profile" with
  | some v => ["builtin echo -en \"\\e]1337;SetProfile=" ++ v.toStr ++ "\\a\""]
  | none => []

/-- Tab step of `Iterm.run` (`Iterm._iterm_tab`): a reset command when
the `tab` style's foreground is the default color, otherwise one
brightness command per RGB channel.  A `tab` style without a foreground
color dies on `style.color.is_default` with an `AttributeError` (the
surrounding `contextlib.suppress` only swallows `KeyError`). -/
def tabCmds (scope : Scope) : Except DyeFailure (List String) :=
  match scope.lookupStyle "tab" with
  | none => .ok []
  | some style =>
      match style.color with
      | none => .error .attributeError
      | some c =>
          if c = Color.default then
            .ok ["builtin echo -en \"\\e]6;1;bg;*;default\\a\""]
          else
            let clr := getTruecolor c
            .ok ["builtin echo -en \"\\e]6;1;bg;red;brightness;" ++ natStr clr.1 ++ "\\a\"",
                 "builtin echo -en \"\\e]6;1;bg;green;brightness;" ++ natStr clr.2.1 ++ "\\a\"",
                 "builtin echo -en \"\\e]6;1;bg;blue;brightness;" ++ natStr clr.2.2 ++ "\\a\""]

/-- Hex form of a triplet with the leading `#` stripped
(`clr.hex.replace("#", "")` in `Iterm._iterm_render_style`). -/
def hexNoHash (clr : Nat × Nat × Nat) : String :=
  hex2 clr.1 ++ hex2 clr.2.1 ++ hex2 clr.2.2

/-- Palette-color step of `Iterm.run` (`Iterm._iterm_render_style`): a
`SetColors` escape for the named style, keyed to the given iterm key; a
named style without a foreground color dies on `get_truecolor` with an
`AttributeError`; an absent style is skipped. -/
def renderStyleCmds (scope : Scope) (style_name iterm_key : String) :
    Except DyeFailure (List String) :=
  match scope.lookupStyle style_name with
  | none => .ok []
  | some style =>
      match style.color with
      | none => .error .attributeError
      | some c =>
          let clr := getTruecolor c
          .ok ["builtin echo -en \"\\e]1337;SetColors=" ++ iterm_key ++ "=" ++
            hexNoHash clr ++ "\\a\""]

/-- Map of the recognized cursor shape aliases (`Iterm.CURSOR_MAP`). -/
def CURSOR_MAP : List (String × String) := [
  ("block", "0"),
  ("box", "0"),
  ("vertical_bar", "1"),
  ("vertical", "1"),
  ("bar", "1"),
  ("pipe", "1"),
  ("underline", "2")]

/-- Python membership `cursor in CURSOR_MAP` followed by indexing: the
`in` test hashes the value first, so an unhashable table (a TOML
mapping, a Python `dict`) raises an unhandled `TypeError` before any
comparison; a string is looked up among the keys; a hashable non-string
(boolean, integer) never equals a string key, so the test is `False`. -/
def cursorInMap : ConfigValue → Except DyeFailure (Option String)
  | .str s => .ok (CURSOR_MAP.lookup s)
  | .table _ => .error .typeError
  | _ => .ok none

/-- Python `==` between a configuration value and a string literal
(equality never hashes, so it is safe on every value). -/
def pyEqStr (v : ConfigValue) (t : String) : Bool :=
  match v with
  | .str s => s == t
  | _ => false

/-- Cursor-shape part of `Iterm._iterm_cursor`: an absent or falsy
`cursor` value is skipped; `"profile"` emits the raw restore-default
escape; a recognized alias emits a `CursorShape` command; any other
truthy hashable value raises `DyeSyntaxError` naming the value and the
scope, while a truthy table value dies in the membership test itself
with an unhandled `TypeError`. -/
def cursorShapeCmds (scope : Scope) : Except DyeFailure (List String) :=
  match scope.lookupDef "cursor" with
  | none => .ok []
  | some v =>
      if v.truthy = false then .ok []
      else if pyEqStr v "profile" then
        .ok ["builtin echo -en \"\\e[0q\""]
      else
        match cursorInMap v with
        | .error e => .error e
        | .ok (some code) =>
            .ok ["builtin echo -en \"\\e]1337;CursorShape=" ++ code ++ "\\a\""]
        | .ok none => .error (.dyeSyntaxError
            ("unknown cursor '" ++ v.toStr ++ "' while processing scope '" ++
              scope.toStr ++ "'"))

/-- Cursor step of `Iterm.run` (`Iterm._iterm_cursor`): the cursor-shape
commands followed by the cursor-color palette command. -/
def cursorCmds (scope : Scope) : Except DyeFailure (List String) :=
  match cursorShapeCmds scope with
  | .error e => .error e
  | .ok cmds =>
      match renderStyleCmds scope "cursor" "curbg" with
      | .error e => .error e
      | .ok colorCmds => .ok (cmds ++ colorCmds)

/-- Output command list of the iterm agent (`Iterm.run` before the final
join): profile switch, tab color, foreground, background, cursor. -/
def runList (scope : Scope) : Except DyeFailure (List String) :=
  match tabCmds scope with
  | .error e => .error e
  | .ok tab =>
      match renderStyleCmds scope "foreground" "fg" with
      | .error e => .error e
      | .ok fg =>
          match renderStyleCmds scope "background" "bg" with
          | .error e => .error e
          | .ok bg =>
              match cursorCmds scope with
              | .error e => .error e
              | .ok cur => .ok (profileCmds scope ++ tab ++ fg ++ bg ++ cur)

/-- The iterm agent (`Iterm.run`): the commands joined by newlines. -/
def run (scope : Scope) : Except DyeFailure String :=
  match runList scope with
  | .error e => .error e
  | .ok cmds => .ok (pyJoin "\n" cmds)

end Iterm

/-- Emptiness/absence of a style as the helper's `if not style:` guard
sees it: the argument is `None` or a falsy style. -/
def styleFalsy : Option Style → Bool
  | none => true
  | some s => !s.truthy

/-- Name resolution of the shared helper, summarized: the mapped native
code when the name is in the map, the name itself when unknown names are
allowed, and nothing otherwise. -/
def resolveName (mapp : List (String × String)) (name : String)
    (allow : Bool) : Option String :=
  match mapp.lookup name with
  | some m => some m
  | none => if allow then some name else none

/-- Specification-side SGR parameters of one color, written from the
ANSI standard the spec appeals to: standard colors 0-7 are `30+n`
foreground / `40+n` background, bright colors 8-15 are `90+(n-8)` /
`100+(n-8)`, extended colors are `38;5;n` / `48;5;n`, truecolor is
`38;2;r;g;b` / `48;2;r;g;b`, and the default color is `39` / `49`. -/
def ansiStandardColorParams (c : Color) (foreground : Bool) : List String :=
  match c with
  | .default => if foreground then ["39"] else ["49"]
  | .standard n =>
      if n < 8 then [natStr (n + (if foreground then 30 else 40))]
      else [natStr ((n - 8) + (if foreground then 90 else 100))]
  | .eightBit n => [(if foreground then "38" else "48"), "5", natStr n]
  | .truecolor r g b =>
      [(if foreground then "38" else "48"), "2", natStr r, natStr g, natStr b]

/-- Specification-side numeric SGR parameters of the six text
attributes, in increasing parameter order: 1 bold, 2 dim, 3 italic,
4 underline, 7 reverse, 9 strikethrough. -/
def ansiAttrParams (s : Style) : List Nat :=
  (if s.bold then [1] else []) ++
  (if s.dim then [2] else []) ++
  (if s.italic then [3] else []) ++
  (if s.underline then [4] else []) ++
  (if s.reverse then [7] else []) ++
  (if s.strike then [9] else [])

/-- Specification-side SGR parameter sequence a standards-compliant ANSI
attribute renderer produces for a whole style: the semicolon-joined
parameters for the attributes present, the foreground color and the
background color if present (attribute parameters first, as such
renderers emit them). -/
def ansiRendererSGR (s : Style) : String :=
  pyJoin ";" ((ansiAttrParams s).map natStr ++
    (match s.color with | some c => ansiStandardColorParams c true | none => []) ++
    (match s.bgcolor with | some c => ansiStandardColorParams c false | none => []))

/-- Numeric code string the shared helper publishes for a style with a
foreground color: the literal `0` for the default foreground, else the
full SGR parameter sequence. -/
def renderedCode (s : Style) (c : Color) : String :=
  if c = Color.default then "0" else ansiRendererSGR s

/-- Specification-side attribute tokens of the fuzzy-finder encoding, in
the fixed order the spec states: bold, underline, reverse, dim, italic,
strikethrough. -/
def fzfAttrTokens (s : Style) : List String :=
  (if s.bold then ["bold"] else []) ++
  (if s.underline then ["underline"] else []) ++
  (if s.reverse then ["reverse"] else []) ++
  (if s.dim then ["dim"] else []) ++
  (if s.italic then ["italic"] else []) ++
  (if s.strike then ["strikethrough"] else [])

/-- Recognized cursor configuration values of the terminal-emulator
agent, as the spec enumerates them. -/
def recognizedCursorValues : List String :=
  ["profile", "block", "box", "vertical_bar", "vertical", "bar", "pipe", "underline"]

/-- Goodness of one SGR token: nonempty and all digits. -/
def GoodToken (t : String) : Prop :=
  t.data ≠ [] ∧ ∀ c ∈ t.data, c.isDigit = true

/-! Lemmas: decimal printing produces digit characters. -/

theorem digitChar_isDigit (n : Nat) (h : n < 10) :
    (Nat.digitChar n).isDigit = true := by
  interval_cases n <;> decide

theorem toDigitsCore_digits (fuel : Nat) :
    ∀ (n : Nat) (ds : List Char), (∀ c ∈ ds, c.isDigit = true) →
      ∀ c ∈ Nat.toDigitsCore 10 fuel n ds, c.isDigit = true := by
  induction fuel with
  | zero => intro n ds hds; simpa [Nat.toDigitsCore] using hds
  | succ f ih =>
      intro n ds hds c hc
      simp only [Nat.toDigitsCore] at hc
      split at hc
      · rcases List.mem_cons.1 hc with rfl | hmem
        · exact digitChar_isDigit _ (Nat.mod_lt _ (by norm_num))
        · exact hds _ hmem
      · refine ih _ _ ?_ _ hc
        intro d hd
        rcases List.mem_cons.1 hd with rfl | hmem
        · exact digitChar_isDigit _ (Nat.mod_lt _ (by norm_num))
        · exact hds _ hmem

theorem toDigitsCore_ne_nil (fuel : Nat) :
    ∀ (n : Nat) (ds : List Char), ds ≠ [] → Nat.toDigitsCore 10 fuel n ds ≠ [] := by
  induction fuel with
  | zero => intro n ds h; simpa [Nat.toDigitsCore] using h
  | succ f ih =>
      intro n ds h
      simp only [Nat.toDigitsCore]
      split
      · exact List.cons_ne_nil _ _
      · exact ih _ _ (List.cons_ne_nil _ _)

theorem natStr_digits (n : Nat) : ∀ c ∈ (natStr n).data, c.isDigit = true := by
  show ∀ c ∈ Nat.toDigitsCore 10 (n + 1) n [], c.isDigit = true
  exact toDigitsCore_digits (n + 1) n [] (by simp)

theorem natStr_ne_nil (n : Nat) : (natStr n).data ≠ [] := by
  show Nat.toDigitsCore 10 (n + 1) n [] ≠ []
  simp only [Nat.toDigitsCore]
  split
  · exact List.cons_ne_nil _ _
  · exact toDigitsCore_ne_nil _ _ _ (List.cons_ne_nil _ _)

/-! Lemmas: every SGR token is a nonempty string of digits. -/

theorem goodToken_natStr (n : Nat) : GoodToken (natStr n) :=
  ⟨natStr_ne_nil n, natStr_digits n⟩

theorem getAnsiCodes_good (c : Color) (fg : Bool) :
    ∀ t ∈ c.getAnsiCodes fg, GoodToken t := by
  cases c with
  | default =>
      intro t ht
      cases fg <;> simp only [Color.getAnsiCodes] at ht <;>
        simp only [List.mem_singleton] at ht <;> subst ht <;>
        exact ⟨by decide, by decide⟩
  | standard n =>
      intro t ht
      simp only [Color.getAnsiCodes] at ht
      split at ht <;> simp only [List.mem_singleton] at ht <;> subst ht <;>
        exact goodToken_natStr _
  | eightBit n =>
      intro t ht
      simp only [Color.getAnsiCodes] at ht
      rcases List.mem_cons.1 ht with rfl | ht
      · cases fg <;> exact ⟨by decide, by decide⟩
      rcases List.mem_cons.1 ht with rfl | ht
      · exact ⟨by decide, by decide⟩
      simp only [List.mem_singleton] at ht; subst ht
      exact goodToken_natStr _
  | truecolor r g b =>
      intro t ht
      simp only [Color.getAnsiCodes] at ht
      rcases List.mem_cons.1 ht with rfl | ht
      · cases fg <;> exact ⟨by decide, by decide⟩
      rcases List.mem_cons.1 ht with rfl | ht
      · exact ⟨by decide, by decide⟩
      rcases List.mem_cons.1 ht with rfl | ht
      · exact goodToken_natStr _
      rcases List.mem_cons.1 ht with rfl | ht
      · exact goodToken_natStr _
      simp only [List.mem_singleton] at ht; subst ht
      exact goodToken_natStr _

theorem attrCodes_good (s : Style) : ∀ t ∈ s.attrCodes, GoodToken t := by
  intro t ht
  have : t = "1" ∨ t = "2" ∨ t = "3" ∨ t = "4" ∨ t = "7" ∨ t = "9" := by
    simp only [Style.attrCodes] at ht
    rcases List.mem_append.1 ht with h | h
    rotate_left
    · right; right; right; right; right
      split at h <;> simpa using h
    rcases List.mem_append.1 h with h | h
    rotate_left
    · right; right; right; right; left
      split at h <;> simpa using h
    rcases List.mem_append.1 h with h | h
    rotate_left
    · right; right; right; left
      split at h <;> simpa using h
    rcases List.mem_append.1 h with h | h
    rotate_left
    · right; right; left
      split at h <;> simpa using h
    rcases List.mem_append.1 h with h | h
    rotate_left
    · right; left
      split at h <;> simpa using h
    · left
      split at h <;> simpa using h
  rcases this with rfl | rfl | rfl | rfl | rfl | rfl <;> exact ⟨by decide, by decide⟩

theorem makeAnsiParts_good (s : Style) :
    ∀ t ∈ s.attrCodes ++
      (match s.color with | some c => c.getAnsiCodes true | none => []) ++
      (match s.bgcolor with | some c => c.getAnsiCodes false | none => []),
      GoodToken t := by
  intro t ht
  rcases List.mem_append.1 ht with h | h
  · rcases List.mem_append.1 h with h | h
    · exact attrCodes_good s t h
    · cases hc : s.color with
      | none => rw [hc] at h; cases h
      | some c => rw [hc] at h; exact getAnsiCodes_good c true t h
  · cases hb : s.bgcolor with
    | none => rw [hb] at h; cases h
    | some c => rw [hb] at h; exact getAnsiCodes_good c false t h

/-! Lemmas: character content of a Python join. -/

theorem pyJoin_chars (sep : String) (P : Char → Prop)
    (hsep : ∀ c ∈ sep.data, P c) :
    ∀ parts : List String, (∀ p ∈ parts, ∀ c ∈ p.data, P c) →
      ∀ c ∈ (pyJoin sep parts).data, P c := by
  intro parts
  induction parts with
  | nil => intro _ c hc; simp [pyJoin] at hc
  | cons x rest ih =>
      intro hp c hc
      cases rest with
      | nil => exact hp x (by simp) c hc
      | cons y r =>
          simp only [pyJoin, String.data_append] at hc
          rcases List.mem_append.1 hc with hc | hc
          · rcases List.mem_append.1 hc with hc | hc
            · exact hp x (by simp) c hc
            · exact hsep c hc
          · exact ih (fun p hm => hp p (List.mem_cons_of_mem _ hm)) c hc

theorem pyJoin_ne_nil (sep : String) (parts : List String)
    (h : parts ≠ []) (hne : ∀ p ∈ parts, p.data ≠ []) :
    (pyJoin sep parts).data ≠ [] := by
  cases parts with
  | nil => exact absurd rfl h
  | cons x rest =>
      cases rest with
      | nil => exact hne x (by simp)
      | cons y r =>
          simp only [pyJoin, String.data_append]
          intro hcontra
          rcases List.append_eq_nil.1 hcontra with ⟨h1, _⟩
          rcases List.append_eq_nil.1 h1 with ⟨h2, _⟩
          exact hne x (by simp) h2

theorem makeAnsiCodes_chars (s : Style) :
    ∀ c ∈ s.makeAnsiCodes.data, isDigitOrSemi c = true := by
  unfold Style.makeAnsiCodes
  refine pyJoin_chars ";" (fun c => isDigitOrSemi c = true) (by decide) _ ?_
  intro p hp c hc
  have hg := (makeAnsiParts_good s p hp).2 c hc
  simp [isDigitOrSemi, hg]

theorem getAnsiCodes_ne_nil (c : Color) (fg : Bool) : c.getAnsiCodes fg ≠ [] := by
  cases c with
  | default => simp [Color.getAnsiCodes]
  | standard n => simp only [Color.getAnsiCodes]; split <;> simp
  | eightBit n => simp [Color.getAnsiCodes]
  | truecolor r g b => simp [Color.getAnsiCodes]

theorem makeAnsiCodes_ne_empty (s : Style) (c : Color) (h : s.color = some c) :
    s.makeAnsiCodes ≠ "" := by
  unfold Style.makeAnsiCodes
  intro hcontra
  have hdata := congrArg String.data hcontra
  refine pyJoin_ne_nil ";" _ ?_ (fun p hp => (makeAnsiParts_good s p hp).1) hdata
  rw [h]
  intro habs
  rcases List.append_eq_nil.1 habs with ⟨h1, _⟩
  rcases List.append_eq_nil.1 h1 with ⟨_, h2⟩
  exact getAnsiCodes_ne_nil c true h2

/-! Lemmas: the regex extraction recovers the codes from the rendered
escape sequence. -/

theorem takeWhile_digits_append (l1 rest : List Char)
    (h : ∀ c ∈ l1, isDigitOrSemi c = true) :
    (l1 ++ 'm' :: rest).takeWhile isDigitOrSemi = l1 := by
  induction l1 with
  | nil =>
      simp only [List.nil_append, List.takeWhile]
      rw [show isDigitOrSemi 'm' = false from by decide]
  | cons c l ih =>
      simp only [List.cons_append, List.takeWhile]
      rw [h c (by simp)]
      simp only [List.cons.injEq, true_and]
      exact ih (fun d hd => h d (List.mem_cons_of_mem _ hd))

theorem sgrPrefixCore_append (attrs rest : List Char)
    (h : ∀ c ∈ attrs, isDigitOrSemi c = true) :
    sgrPrefixCore ('\x1b' :: '[' :: (attrs ++ 'm' :: rest)) = some attrs := by
  simp only [sgrPrefixCore, if_pos (And.intro rfl rfl)]
  rw [takeWhile_digits_append attrs rest h, List.drop_left]
  simp

theorem extractSGR_render (s : Style) (hne : s.makeAnsiCodes ≠ "") :
    extractSGR (s.render "-----") = some s.makeAnsiCodes := by
  unfold Style.render extractSGR
  rw [if_neg hne]
  have hdata :
      ("\x1b[" ++ s.makeAnsiCodes ++ "m" ++ "-----" ++ "\x1b[0m").data =
        '\x1b' :: '[' :: (s.makeAnsiCodes.data ++ 'm' :: "-----\x1b[0m".data) := by
    simp [String.data_append]
  rw [hdata, sgrPrefixCore_append _ _ (makeAnsiCodes_chars s)]
  rfl

/-! Lemmas: the rendered code string equals the specification-side ANSI
renderer output. -/

theorem getAnsiCodes_eq_std (c : Color) (fg : Bool) :
    c.getAnsiCodes fg = ansiStandardColorParams c fg := by
  cases c with
  | default => cases fg <;> rfl
  | standard n =>
      rcases Nat.lt_or_ge n 8 with hn | hn
      · have e1 : (if fg = true then 30 else 40) + n = n + (if fg = true then 30 else 40) :=
          Nat.add_comm _ _
        simp [Color.getAnsiCodes, ansiStandardColorParams, hn, e1]
      · have e2 : (if fg = true then 82 else 92) + n =
            (n - 8) + (if fg = true then 90 else 100) := by
          cases fg <;> simp <;> omega
        simp [Color.getAnsiCodes, ansiStandardColorParams, Nat.not_lt.2 hn, e2]
  | eightBit n => cases fg <;> rfl
  | truecolor r g b => cases fg <;> rfl

theorem attrCodes_eq_map (s : Style) :
    s.attrCodes = (ansiAttrParams s).map natStr := by
  unfold Style.attrCodes ansiAttrParams
  cases s.bold <;> cases s.dim <;> cases s.italic <;> cases s.underline <;>
    cases s.reverse <;> cases s.strike <;> rfl

theorem makeAnsiCodes_eq_renderer (s : Style) :
    s.makeAnsiCodes = ansiRendererSGR s := by
  unfold Style.makeAnsiCodes ansiRendererSGR
  rw [attrCodes_eq_map]
  cases hc : s.color <;> cases hb : s.bgcolor <;>
    simp only [getAnsiCodes_eq_std]

/-! Lemmas: behaviour of the shared style-to-code helper. -/

theorem ls_colors_falsy (name scope_name : String) (mapp : List (String × String))
    (allow : Bool) (st : Option Style) (h : styleFalsy st = true) :
    ls_colors_from_style name st mapp scope_name allow = .ok ("", "") := by
  cases st with
  | none => rfl
  | some s =>
      simp only [styleFalsy, Bool.not_eq_true'] at h
      simp [ls_colors_from_style, h]

theorem ls_colors_ok (name scope_name m : String) (mapp : List (String × String))
    (allow : Bool) (s : Style) (c : Color) (hs : s.truthy = true)
    (hres : resolveName mapp name allow = some m) (hc : s.color = some c) :
    ls_colors_from_style name (some s) mapp scope_name allow =
      .ok (m, m ++ "=" ++ renderedCode s c) := by
  unfold resolveName at hres
  unfold renderedCode
  cases hl : mapp.lookup name with
  | some m0 =>
      rw [hl] at hres
      cases hres
      by_cases hd : c = Color.default
      · simp [ls_colors_from_style, hs, hl, hc, hd, String.append_assoc]
      · simp [ls_colors_from_style, hs, hl, hc, hd,
          extractSGR_render s (makeAnsiCodes_ne_empty s c hc),
          makeAnsiCodes_eq_renderer]
  | none =>
      rw [hl] at hres
      cases allow with
      | false => simp at hres
      | true =>
          simp only [if_true] at hres
          cases hres
          by_cases hd : c = Color.default
          · simp [ls_colors_from_style, hs, hl, hc, hd, String.append_assoc]
          · simp [ls_colors_from_style, hs, hl, hc, hd,
              extractSGR_render s (makeAnsiCodes_ne_empty s c hc),
              makeAnsiCodes_eq_renderer]

theorem ls_colors_unknown_fails (name scope_name : String)
    (mapp : List (String × String)) (s : Style) (hs : s.truthy = true)
    (hl : mapp.lookup name = none) :
    ls_colors_from_style name (some s) mapp scope_name false =
      .error (.dyeError
        ("unknown style '" ++ name ++ "' while processing scope '" ++
          scope_name ++ "'")) := by
  simp [ls_colors_from_style, hs, hl]

theorem ls_colors_no_color_fails (name scope_name m : String)
    (mapp : List (String × String)) (allow : Bool) (s : Style)
    (hs : s.truthy = true) (hres : resolveName mapp name allow = some m)
    (hc : s.color = none) :
    ls_colors_from_style name (some s) mapp scope_name allow =
      .error .attributeError := by
  unfold resolveName at hres
  cases hl : mapp.lookup name with
  | some m0 => simp [ls_colors_from_style, hs, hl, hc]
  | none =>
      rw [hl] at hres
      cases allow with
      | false => simp at hres
      | true => simp [ls_colors_from_style, hs, hl, hc]

/-- C1: for every call of the shared style-to-code helper, an
empty/absent style returns the empty pair; when the entry name resolves
to a native code `m`, a default foreground produces the fragment `m=0`,
and any other foreground color produces `m=` followed by exactly the
semicolon-joined SGR parameter sequence a standards-compliant ANSI
renderer emits for the style. -/
theorem claim_C1_style_to_native_code (name scope_name : String)
    (mapp : List (String × String)) (allow : Bool) :
    (∀ st : Option Style, styleFalsy st = true →
      ls_colors_from_style name st mapp scope_name allow = .ok ("", "")) ∧
    (∀ (s : Style) (m : String), s.truthy = true →
      resolveName mapp name allow = some m →
      (s.color = some Color.default →
        ls_colors_from_style name (some s) mapp scope_name allow =
          .ok (m, m ++ "=0")) ∧
      (∀ c : Color, s.color = some c → c ≠ Color.default →
        ls_colors_from_style name (some s) mapp scope_name allow =
          .ok (m, m ++ "=" ++ ansiRendererSGR s))) := by
  constructor
  · exact fun st h => ls_colors_falsy name scope_name mapp allow st h
  · intro s m hs hres
    constructor
    · intro hc
      have h := ls_colors_ok name scope_name m mapp allow s Color.default hs hres hc
      exact h.trans (by rw [renderedCode, if_pos rfl, String.append_assoc]; rfl)
    · intro c hc hd
      have h := ls_colors_ok name scope_name m mapp allow s c hs hres hc
      rw [renderedCode, if_neg hd] at h
      exact h

/-- Witness for C1 at concrete inputs: an absent style, a null style, a
default-foreground style and a bold truecolor style, resolved through
the GNU ls friendly-name map. -/
theorem claim_C1_witness :
    ls_colors_from_style "directory" none GnuLs.LS_COLORS_MAP "pattern" false =
      .ok ("", "") ∧
    ls_colors_from_style "text" (some { color := some Color.default })
      GnuLs.LS_COLORS_MAP "pattern" false = .ok ("no", "no=0") ∧
    ls_colors_from_style "directory"
      (some { color := some (Color.truecolor 17 34 51), bold := true })
      GnuLs.LS_COLORS_MAP "pattern" false = .ok ("di", "di=1;38;2;17;34;51") := by
  refine ⟨?_, ?_, ?_⟩
  · exact (claim_C1_style_to_native_code "directory" "pattern"
      GnuLs.LS_COLORS_MAP false).1 none rfl
  · exact ((claim_C1_style_to_native_code "text" "pattern"
      GnuLs.LS_COLORS_MAP false).2 { color := some Color.default } "no"
      (by decide) (by decide)).1 rfl
  · exact (((claim_C1_style_to_native_code "directory" "pattern"
      GnuLs.LS_COLORS_MAP false).2
      { color := some (Color.truecolor 17 34 51), bold := true } "di"
      (by decide) (by decide)).2 (Color.truecolor 17 34 51) rfl
      (by decide)).trans (by rfl)

/-- C2 counterexample: a non-empty style (bold, no foreground color) and
a name absent from the map, with unknown names allowed — the helper does
fail (with an escaped `AttributeError`), contradicting the claim that it
never fails for an absent name. -/
theorem claim_C2_counterexample :
    Style.truthy { bold := true } = true ∧
    GnuLs.LS_COLORS_MAP.lookup "zork" = none ∧
    ls_colors_from_style "zork" (some { bold := true }) GnuLs.LS_COLORS_MAP
      "pattern" true = .error .attributeError := by
  exact ⟨rfl, by decide, rfl⟩

/-- C2 as amended: with `allow_unknown=false` an absent name always
fails with the spec's SyntaxError naming the unknown entry and the
scope; with `allow_unknown=true` an absent name never fails *provided
the style carries a foreground color*, and the name itself is used as
the resolved native code. -/
theorem claim_C2_unknown_name (name scope_name : String)
    (mapp : List (String × String)) (s : Style) (hs : s.truthy = true)
    (hl : mapp.lookup name = none) :
    (∃ e : DyeFailure,
      ls_colors_from_style name (some s) mapp scope_name false = .error e ∧
      e.isSpecSyntaxError = true ∧
      e = .dyeError ("unknown style '" ++ name ++ "' while processing scope '" ++
        scope_name ++ "'")) ∧
    (∀ c : Color, s.color = some c →
      ls_colors_from_style name (some s) mapp scope_name true =
        .ok (name, name ++ "=" ++ renderedCode s c)) := by
  constructor
  · exact ⟨_, ls_colors_unknown_fails name scope_name mapp s hs hl, rfl, rfl⟩
  · intro c hc
    refine ls_colors_ok name scope_name name mapp true s c hs ?_ hc
    unfold resolveName
    rw [hl]
    rfl

/-- Witness for C2's amended claim at a concrete input: the absent name
`zork` with a bold red truecolor style. -/
theorem claim_C2_witness :
    ls_colors_from_style "zork" (some { color := some (Color.truecolor 255 0 0), bold := true })
      GnuLs.LS_COLORS_MAP "pattern" false =
      .error (.dyeError "unknown style 'zork' while processing scope 'pattern'") ∧
    ls_colors_from_style "zork" (some { color := some (Color.truecolor 255 0 0), bold := true })
      GnuLs.LS_COLORS_MAP "pattern" true = .ok ("zork", "zork=1;38;2;255;0;0") := by
  have h := claim_C2_unknown_name "zork" "pattern" GnuLs.LS_COLORS_MAP
    { color := some (Color.truecolor 255 0 0), bold := true } (by decide) (by decide)
  constructor
  · rcases h.1 with ⟨e, he, _, hmsg⟩
    rw [he, hmsg]
    rfl
  · exact (h.2 (Color.truecolor 255 0 0) rfl).trans (by rfl)

/-- C10: a non-empty style without a foreground color makes the shared
helper, and the terminal-emulator agent's `tab`/`foreground`/
`background`/`cursor` style handling, dereference the missing color and
escape with an `AttributeError` — which is not the spec's SyntaxError
and not a silent skip.  The implicit precondition of these operations is
that every configured style carries a foreground color. -/
theorem claim_C10_missing_foreground :
    DyeFailure.isSpecSyntaxError .attributeError = false ∧
    (∀ (name scope_name m : String) (mapp : List (String × String))
      (allow : Bool) (s : Style), s.truthy = true →
      resolveName mapp name allow = some m → s.color = none →
      ls_colors_from_style name (some s) mapp scope_name allow =
        .error .attributeError) ∧
    (∀ (scope : Scope) (s : Style), scope.lookupStyle "tab" = some s →
      s.color = none → Iterm.runList scope = .error .attributeError) ∧
    (∀ (scope : Scope) (s : Style), scope.lookupStyle "tab" = none →
      scope.lookupStyle "foreground" = some s → s.color = none →
      Iterm.runList scope = .error .attributeError) ∧
    (∀ (scope : Scope) (s : Style), scope.lookupStyle "tab" = none →
      scope.lookupStyle "foreground" = none →
      scope.lookupStyle "background" = some s → s.color = none →
      Iterm.runList scope = .error .attributeError) ∧
    (∀ (scope : Scope) (s : Style), scope.lookupStyle "tab" = none →
      scope.lookupStyle "foreground" = none →
      scope.lookupStyle "background" = none →
      scope.lookupDef "cursor" = none →
      scope.lookupStyle "cursor" = some s → s.color = none →
      Iterm.runList scope = .error .attributeError) := by
  refine ⟨rfl, ?_, ?_, ?_, ?_, ?_⟩
  · exact fun name scope_name m mapp allow s hs hres hc =>
      ls_colors_no_color_fails name scope_name m mapp allow s hs hres hc
  · intro scope s htab hc
    simp [Iterm.runList, Iterm.tabCmds, htab, hc]
  · intro scope s htab hfg hc
    simp [Iterm.runList, Iterm.tabCmds, Iterm.renderStyleCmds, htab, hfg, hc]
  · intro scope s htab hfg hbg hc
    simp [Iterm.runList, Iterm.tabCmds, Iterm.renderStyleCmds, htab, hfg, hbg, hc]
  · intro scope s htab hfg hbg hcur hst hc
    simp [Iterm.runList, Iterm.tabCmds, Iterm.renderStyleCmds, Iterm.cursorCmds,
      Iterm.cursorShapeCmds, htab, hfg, hbg, hcur, hst, hc]

/-- Witness for C10 at concrete inputs: a bold style with no color fed
to the shared helper and to each of the four special style names of the
terminal-emulator agent. -/
theorem claim_C10_witness :
    ls_colors_from_style "directory" (some { bold := true })
      GnuLs.LS_COLORS_MAP "pattern" false = .error .attributeError ∧
    Iterm.runList ⟨"s", [], [("tab", { bold := true })]⟩ =
      .error .attributeError ∧
    Iterm.runList ⟨"s", [], [("foreground", { bold := true })]⟩ =
      .error .attributeError ∧
    Iterm.runList ⟨"s", [], [("background", { bold := true })]⟩ =
      .error .attributeError ∧
    Iterm.runList ⟨"s", [], [("cursor", { bold := true })]⟩ =
      .error .attributeError := by
  have h := claim_C10_missing_foreground
  refine ⟨?_, ?_, ?_, ?_, ?_⟩
  · exact h.2.1 "directory" "pattern" "di" GnuLs.LS_COLORS_MAP false
      { bold := true } (by decide) (by decide) rfl
  · exact h.2.2.1 ⟨"s", [], [("tab", { bold := true })]⟩ { bold := true } rfl rfl
  · exact h.2.2.2.1 ⟨"s", [], [("foreground", { bold := true })]⟩
      { bold := true } rfl rfl rfl
  · exact h.2.2.2.2.1 ⟨"s", [], [("background", { bold := true })]⟩
      { bold := true } rfl rfl rfl rfl
  · exact h.2.2.2.2.2 ⟨"s", [], [("cursor", { bold := true })]⟩
      { bold := true } rfl rfl rfl rfl rfl rfl

/-- C3: with an empty style mapping and `clear_builtin` absent or false,
the GNU ls agent emits exactly `export LS_COLORS=""` (with the variable
renamed by the `environment_variable` key when present) — the export
statement is emitted even though the fragment list is empty. -/
theorem claim_C3_empty_mapping (scope : Scope)
    (hsty : scope.styles = [])
    (hcb : scope.lookupDef "clear_builtin" = none ∨
      scope.lookupDef "clear_builtin" = some (.bool false)) :
    GnuLs.run scope = .ok ("export " ++ GnuLs.varname scope ++ "=\"\"") ∧
    (scope.lookupDef "environment_variable" = none →
      GnuLs.run scope = .ok "export LS_COLORS=\"\"") := by
  have hcb' : GnuLs.clearBuiltin scope = .ok false := by
    rcases hcb with h | h <;> simp [GnuLs.clearBuiltin, h]
  have hfrag : GnuLs.fragments scope = .ok [] := by
    simp [GnuLs.fragments, hcb', hsty, GnuLs.userPairs]
  constructor
  · simp only [GnuLs.run, hfrag, List.map_nil, pyJoin]
    rw [String.append_assoc, String.append_assoc]
    rfl
  · intro hev
    simp only [GnuLs.run, hfrag, List.map_nil, pyJoin, GnuLs.varname, hev]
    rfl

/-- Witness for C3 at concrete inputs: a scope with no styles and no
configuration, and one with a custom environment variable. -/
theorem claim_C3_witness :
    GnuLs.run ⟨"s", [], []⟩ = .ok "export LS_COLORS=\"\"" ∧
    GnuLs.run ⟨"s", [("clear_builtin", .bool false),
      ("environment_variable", .str "MY_COLORS")], []⟩ =
      .ok "export MY_COLORS=\"\"" := by
  constructor
  · exact (claim_C3_empty_mapping ⟨"s", [], []⟩ rfl (Or.inl rfl)).2 rfl
  · exact ((claim_C3_empty_mapping ⟨"s", [("clear_builtin", .bool false),
      ("environment_variable", .str "MY_COLORS")], []⟩ rfl
      (Or.inr rfl)).1).trans (by rfl)

theorem userPairs_single (name scopeName m : String) (s : Style) (c : Color)
    (hs : s.truthy = true) (hl : GnuLs.LS_COLORS_MAP.lookup name = some m)
    (hc : s.color = some c) :
    GnuLs.userPairs [(name, s)] scopeName =
      .ok [(m, m ++ "=" ++ renderedCode s c)] := by
  have h := ls_colors_ok name scopeName m GnuLs.LS_COLORS_MAP false s c hs
    (by unfold resolveName; rw [hl]) hc
  simp [GnuLs.userPairs, hs, h]

theorem neutralPairs_eq (covered : List String) (scope : Scope) :
    ∀ l : List (String × String),
      (∀ fc ∈ l, GnuLs.LS_COLORS_MAP.lookup fc.1 = some fc.2) →
      GnuLs.neutralPairs covered scope l =
        .ok ((l.filter (fun fc => !(covered.contains fc.2))).map
          (fun fc => (fc.2, fc.2 ++ "=0"))) := by
  intro l
  induction l with
  | nil => intro _; simp [GnuLs.neutralPairs]
  | cons fc rest ih =>
      intro hl
      obtain ⟨n, cd⟩ := fc
      have htail := ih (fun x hx => hl x (List.mem_cons_of_mem _ hx))
      have hhead : GnuLs.LS_COLORS_MAP.lookup n = some cd := hl (n, cd) (by simp)
      by_cases hmem : covered.contains cd
      · have hmem' : cd ∈ covered := by simpa using hmem
        simp [GnuLs.neutralPairs, hmem, hmem', htail, List.filter_cons]
      · have hmem' : ¬(cd ∈ covered) := by simpa using hmem
        have hfirst := ls_colors_ok n scope.toStr cd GnuLs.LS_COLORS_MAP false
          GnuLs.defaultStyle Color.default rfl
          (by unfold resolveName; rw [hhead]) rfl
        have hfrag : cd ++ "=" ++ renderedCode GnuLs.defaultStyle Color.default =
            cd ++ "=0" := by
          rw [renderedCode, if_pos rfl, String.append_assoc]
          rfl
        rw [hfrag] at hfirst
        simp [GnuLs.neutralPairs, hmem, hmem', htail, hfirst, List.filter_cons]

theorem base_map_lookups :
    ∀ fc ∈ GnuLs.LS_COLORS_BASE_MAP,
      GnuLs.LS_COLORS_MAP.lookup fc.1 = some fc.2 := by
  decide

/-- C4: with `clear_builtin=true` and exactly one overridden built-in
entry, the GNU ls agent's fragment list carries the override's native
code exactly once (rendered from the user's style), and for every other
built-in name a neutral fragment `code=0` — the rendering of a
"default foreground, no attributes" style — appended after the user's
fragment. -/
theorem claim_C4_clear_builtin_override (scope : Scope) (name : String)
    (s : Style) (m : String) (c : Color)
    (hsty : scope.styles = [(name, s)])
    (hcb : scope.lookupDef "clear_builtin" = some (.bool true))
    (hs : s.truthy = true) (hc : s.color = some c)
    (hm : GnuLs.LS_COLORS_MAP.lookup name = some m) :
    ∃ rest : List (String × String),
      GnuLs.fragments scope = .ok ((m, m ++ "=" ++ renderedCode s c) :: rest) ∧
      List.countP (fun p => p.1 == m)
        ((m, m ++ "=" ++ renderedCode s c) :: rest) = 1 ∧
      (∀ fc ∈ GnuLs.LS_COLORS_BASE_MAP, fc.2 ≠ m →
        (fc.2, fc.2 ++ "=0") ∈ rest) ∧
      GnuLs.run scope = .ok ("export " ++ GnuLs.varname scope ++ "=\"" ++
        pyJoin ":" (((m, m ++ "=" ++ renderedCode s c) :: rest).map Prod.snd) ++
        "\"") := by
  have hclear : GnuLs.clearBuiltin scope = .ok true := by
    simp [GnuLs.clearBuiltin, hcb]
  have huser := userPairs_single name scope.name m s c hs hm hc
  have hneut := neutralPairs_eq [m] scope GnuLs.LS_COLORS_BASE_MAP base_map_lookups
  have hfrag : GnuLs.fragments scope =
      .ok ((m, m ++ "=" ++ renderedCode s c) ::
        (GnuLs.LS_COLORS_BASE_MAP.filter (fun fc => !(List.contains [m] fc.2))).map
          (fun fc => (fc.2, fc.2 ++ "=0"))) := by
    simp [GnuLs.fragments, hclear, hsty, huser, hneut]
  refine ⟨_, hfrag, ?_, ?_, ?_⟩
  · rw [List.countP_cons]
    have hz : List.countP (fun p => p.1 == m)
        ((GnuLs.LS_COLORS_BASE_MAP.filter (fun fc => !(List.contains [m] fc.2))).map
          (fun fc => (fc.2, fc.2 ++ "=0"))) = 0 := by
      rw [List.countP_eq_zero]
      intro a ha
      rcases List.mem_map.1 ha with ⟨fc, hfc, rfl⟩
      have hne := (List.mem_filter.1 hfc).2
      simp at hne ⊢
      exact hne
    rw [hz]
    simp
  · intro fc hfc hne
    apply List.mem_map.2
    refine ⟨fc, List.mem_filter.2 ⟨hfc, ?_⟩, rfl⟩
    simp [hne]
  · simp [GnuLs.run, hfrag]

/-- Witness for C4 at a concrete input: one overridden entry
(`directory`, bold truecolor) with `clear_builtin=true`. -/
theorem claim_C4_witness :
    ∃ rest : List (String × String),
      GnuLs.fragments ⟨"s", [("clear_builtin", .bool true)],
        [("directory", { color := some (Color.truecolor 17 34 51), bold := true })]⟩ =
        .ok (("di", "di=" ++ renderedCode
          { color := some (Color.truecolor 17 34 51), bold := true }
          (Color.truecolor 17 34 51)) :: rest) ∧
      List.countP (fun p => p.1 == "di")
        (("di", "di=" ++ renderedCode
          { color := some (Color.truecolor 17 34 51), bold := true }
          (Color.truecolor 17 34 51)) :: rest) = 1 ∧
      (∀ fc ∈ GnuLs.LS_COLORS_BASE_MAP, fc.2 ≠ "di" →
        (fc.2, fc.2 ++ "=0") ∈ rest) := by
  rcases claim_C4_clear_builtin_override
      ⟨"s", [("clear_builtin", .bool true)],
        [("directory", { color := some (Color.truecolor 17 34 51), bold := true })]⟩
      "directory" { color := some (Color.truecolor 17 34 51), bold := true }
      "di" (Color.truecolor 17 34 51) rfl rfl (by decide) rfl (by decide) with
    ⟨rest, h1, h2, h3, _⟩
  exact ⟨rest, h1.trans rfl, h2, h3⟩

/-- C5: with `clear_builtin=true` the eza agent's output list starts
with the literal token `reset`, followed directly by the rendered style
fragments — no built-in name is re-rendered with a neutral style. -/
theorem claim_C5_eza_reset (scope : Scope)
    (hcb : scope.lookupDef "clear_builtin" = some (.bool true)) :
    ∀ out, Eza.outlist scope = .ok out →
      (∃ frags, Eza.styleFragments scope scope.styles = .ok frags ∧
        out = "reset" :: frags) ∧
      Eza.run scope = .ok ("export " ++ Eza.varname scope ++ "=\"" ++
        pyJoin ":" out ++ "\"") := by
  have hpre : Eza.resetTokens scope = .ok ["reset"] := by
    simp [Eza.resetTokens, hcb]
  intro out hout
  have hout' := hout
  unfold Eza.outlist at hout'
  rw [hpre] at hout'
  refine ⟨?_, by simp [Eza.run, hout]⟩
  cases hsf : Eza.styleFragments scope scope.styles with
  | error e => rw [hsf] at hout'; cases hout'
  | ok frags =>
      rw [hsf] at hout'
      cases hout'
      exact ⟨frags, rfl, rfl⟩

/-- Witness for C5 at a concrete input: `clear_builtin=true` with one
truecolor style. -/
theorem claim_C5_witness :
    (∃ frags, Eza.styleFragments
        ⟨"s", [("clear_builtin", .bool true)],
          [("filekinds:directory", { color := some (Color.truecolor 17 34 51) })]⟩
        [("filekinds:directory", { color := some (Color.truecolor 17 34 51) })] =
        .ok frags ∧
      ["reset", "di=38;2;17;34;51"] = "reset" :: frags) ∧
    Eza.run ⟨"s", [("clear_builtin", .bool true)],
      [("filekinds:directory", { color := some (Color.truecolor 17 34 51) })]⟩ =
      .ok ("export " ++ "EZA_COLORS" ++ "=\"" ++
        pyJoin ":" ["reset", "di=38;2;17;34;51"] ++ "\"") := by
  exact claim_C5_eza_reset
    ⟨"s", [("clear_builtin", .bool true)],
      [("filekinds:directory", { color := some (Color.truecolor 17 34 51) })]⟩
    rfl ["reset", "di=38;2;17;34;51"] rfl

/-- C9: for both lister agents a present non-boolean `clear_builtin`
fails with the spec's SyntaxError, while an absent key means false:
the clear-builtin reads succeed with the false behaviour and each run
equals the run of the same scope with `clear_builtin=false` made
explicit. -/
theorem claim_C9_clear_builtin_validation (scope : Scope) :
    (∀ v : ConfigValue, scope.lookupDef "clear_builtin" = some v →
      (∀ b : Bool, v ≠ .bool b) →
      GnuLs.run scope = .error (.dyeSyntaxError
        ("scope '" ++ scope.toStr ++
          "' requires 'clear_builtin' to be true or false")) ∧
      Eza.run scope = .error (.dyeSyntaxError
        ("scope '" ++ scope.toStr ++
          "' requires 'clear_builtin' to be true or false"))) ∧
    (scope.lookupDef "clear_builtin" = none →
      GnuLs.clearBuiltin scope = .ok false ∧
      Eza.resetTokens scope = .ok [] ∧
      GnuLs.run scope = GnuLs.run { scope with
        definition := ("clear_builtin", .bool false) :: scope.definition } ∧
      Eza.run scope = Eza.run { scope with
        definition := ("clear_builtin", .bool false) :: scope.definition }) := by
  constructor
  · intro v hv hnb
    cases v with
    | bool b => exact absurd rfl (hnb b)
    | str s =>
        exact ⟨by simp [GnuLs.run, GnuLs.fragments, GnuLs.clearBuiltin, hv],
          by simp [Eza.run, Eza.outlist, Eza.resetTokens, hv]⟩
    | int n =>
        exact ⟨by simp [GnuLs.run, GnuLs.fragments, GnuLs.clearBuiltin, hv],
          by simp [Eza.run, Eza.outlist, Eza.resetTokens, hv]⟩
    | table kvs =>
        exact ⟨by simp [GnuLs.run, GnuLs.fragments, GnuLs.clearBuiltin, hv],
          by simp [Eza.run, Eza.outlist, Eza.resetTokens, hv]⟩
  · intro hnone
    have hbeq : ("environment_variable" == "clear_builtin") = false := by decide
    have h1 : GnuLs.clearBuiltin scope = .ok false := by
      simp [GnuLs.clearBuiltin, hnone]
    have h2 : GnuLs.clearBuiltin { scope with
        definition := ("clear_builtin", .bool false) :: scope.definition } =
        .ok false := by
      simp [GnuLs.clearBuiltin, Scope.lookupDef, List.lookup]
    have h3 : Eza.resetTokens scope = .ok [] := by
      simp [Eza.resetTokens, hnone]
    have h4 : Eza.resetTokens { scope with
        definition := ("clear_builtin", .bool false) :: scope.definition } =
        .ok [] := by
      simp [Eza.resetTokens, Scope.lookupDef, List.lookup]
    have hvarg : GnuLs.varname { scope with
        definition := ("clear_builtin", .bool false) :: scope.definition } =
        GnuLs.varname scope := by
      unfold GnuLs.varname Scope.lookupDef
      rw [List.lookup_cons]
      simp [hbeq]
    have hvare : Eza.varname { scope with
        definition := ("clear_builtin", .bool false) :: scope.definition } =
        Eza.varname scope := by
      unfold Eza.varname Scope.lookupDef
      rw [List.lookup_cons]
      simp [hbeq]
    have hfrag : GnuLs.fragments { scope with
        definition := ("clear_builtin", .bool false) :: scope.definition } =
        GnuLs.fragments scope := by
      unfold GnuLs.fragments
      rw [h1, h2]
      rfl
    have hsty : ∀ l, Eza.styleFragments { scope with
        definition := ("clear_builtin", .bool false) :: scope.definition } l =
        Eza.styleFragments scope l := by
      intro l
      induction l with
      | nil => rfl
      | cons ns rest ih => simp [Eza.styleFragments, Scope.toStr, ih]
    refine ⟨h1, h3, ?_, ?_⟩
    · unfold GnuLs.run
      rw [hfrag, hvarg]
    · unfold Eza.run Eza.outlist
      rw [h3, h4, hsty, hvare]

/-- Witness for C9 at concrete inputs: `clear_builtin` set to a string,
and `clear_builtin` absent. -/
theorem claim_C9_witness :
    GnuLs.run ⟨"s", [("clear_builtin", .str "yes")], []⟩ =
      .error (.dyeSyntaxError
        "scope 's' requires 'clear_builtin' to be true or false") ∧
    Eza.run ⟨"s", [("clear_builtin", .str "yes")], []⟩ =
      .error (.dyeSyntaxError
        "scope 's' requires 'clear_builtin' to be true or false") ∧
    GnuLs.clearBuiltin ⟨"s", [], []⟩ = .ok false ∧
    GnuLs.run ⟨"s", [], []⟩ =
      GnuLs.run ⟨"s", [("clear_builtin", .bool false)], []⟩ := by
  have ha := (claim_C9_clear_builtin_validation
    ⟨"s", [("clear_builtin", .str "yes")], []⟩).1 (.str "yes") rfl
    (fun b h => ConfigValue.noConfusion h)
  have hb := (claim_C9_clear_builtin_validation ⟨"s", [], []⟩).2 rfl
  exact ⟨ha.1.trans rfl, ha.2.trans rfl, hb.1, hb.2.2.1⟩

/-- C6: a style named `text` whose only color is the foreground
truecolor `#112233` and whose only attribute is bold yields exactly the
clause `fg:#112233:regular:bold` (so no `bg` clause); and for every
style the attribute encoding starts with `regular` and appends, in the
fixed order bold, underline, reverse, dim, italic, strikethrough, one
token per attribute present. -/
theorem claim_C6_fzf_text_clause :
    Fzf.fzf_from_style "text"
      { color := some (Color.truecolor 17 34 51), bold := true } =
      "fg:#112233:regular:bold" ∧
    (∀ s : Style, Fzf.fzf_attribs_from_style s =
      pyJoin ":" ("regular" :: fzfAttrTokens s)) := by
  constructor
  · rfl
  · intro s
    obtain ⟨co, bg, bo, dm, it, un, rv, sk⟩ := s
    unfold Fzf.fzf_attribs_from_style fzfAttrTokens
    cases bo <;> cases dm <;> cases it <;> cases un <;> cases rv <;> cases sk <;> rfl

/-- C7 counterexample: a scope with no `colorbase` whose single style
produces an *empty* color clause — the claim says the `--color` argument
is then omitted entirely, but the agent still emits ` --color=''`. -/
theorem claim_C7_counterexample :
    Fzf.fzf_from_style "zork" { bold := true } = "" ∧
    Scope.lookupDef ⟨"s", [], [("zork", { bold := true })]⟩ "colorbase" = none ∧
    Fzf.run ⟨"s", [], [("zork", { bold := true })]⟩ =
      .ok "export FZF_DEFAULT_OPTS=\" --color=''\"" :=
  ⟨rfl, rfl, rfl⟩

/-- C7 as amended: the output carries a ` --color='...'` argument iff a
`colorbase` is configured or the scope has at least one style (even one
whose clause is empty); with no colorbase and an empty style mapping the
`--color` argument is omitted entirely. -/
theorem claim_C7_color_argument (scope : Scope)
    (kvs : List (String × ConfigValue)) (hopts : Fzf.optsOf scope = .ok kvs) :
    Fzf.run scope = .ok ("export " ++ Fzf.varname scope ++ "=\"" ++
      Fzf.optsString kvs ++ Fzf.colorString scope ++ "\"") ∧
    (scope.lookupDef "colorbase" = none → scope.styles = [] →
      Fzf.colorString scope = "") ∧
    ((scope.lookupDef "colorbase" ≠ none ∨ scope.styles ≠ []) →
      ∃ body, Fzf.colorString scope = " --color='" ++ body ++ "'") := by
  refine ⟨by simp [Fzf.run, hopts], ?_, ?_⟩
  · intro hcb hsty
    have h1 : Fzf.colorbase scope = "" := by simp [Fzf.colorbase, hcb]
    have h2 : Fzf.colorClauses scope = [] := by simp [Fzf.colorClauses, hsty]
    simp [Fzf.colorString, h1, h2]
  · intro hor
    have hcond : Fzf.colorbase scope ≠ "" ∨ Fzf.colorClauses scope ≠ [] := by
      rcases hor with h | h
      · left
        cases hv : scope.lookupDef "colorbase" with
        | none => exact absurd hv h
        | some v =>
            simp only [Fzf.colorbase, hv]
            intro habs
            have := congrArg String.data habs
            rw [String.data_append] at this
            exact List.append_ne_nil_of_right_ne_nil _ (by decide) this
      · right
        simp only [Fzf.colorClauses]
        intro habs
        exact h (List.map_eq_nil.1 habs)
    refine ⟨Fzf.colorbase scope ++ pyJoin "," (Fzf.colorClauses scope), ?_⟩
    rw [Fzf.colorString, if_pos hcond]
    simp [String.append_assoc]

/-- Witness for C7's amended claim at concrete inputs: an empty scope
(argument omitted) and a scope with one style (argument present). -/
theorem claim_C7_witness :
    Fzf.run ⟨"s", [], []⟩ = .ok ("export " ++ "FZF_DEFAULT_OPTS" ++ "=\"" ++
      "" ++ Fzf.colorString ⟨"s", [], []⟩ ++ "\"") ∧
    Fzf.colorString ⟨"s", [], []⟩ = "" ∧
    (∃ body, Fzf.colorString ⟨"s", [], [("zork", { bold := true })]⟩ =
      " --color='" ++ body ++ "'") := by
  have h1 := claim_C7_color_argument ⟨"s", [], []⟩ [] rfl
  have h2 := claim_C7_color_argument ⟨"s", [], [("zork", { bold := true })]⟩ [] rfl
  exact ⟨h1.1, h1.2.1 rfl rfl, h2.2.2 (Or.inr (by simp))⟩

theorem runList_ok_parts (scope : Scope) (out : List String)
    (h : Iterm.runList scope = .ok out) :
    ∃ tab fg bg cur,
      Iterm.tabCmds scope = .ok tab ∧
      Iterm.renderStyleCmds scope "foreground" "fg" = .ok fg ∧
      Iterm.renderStyleCmds scope "background" "bg" = .ok bg ∧
      Iterm.cursorCmds scope = .ok cur ∧
      out = Iterm.profileCmds scope ++ tab ++ fg ++ bg ++ cur := by
  unfold Iterm.runList at h
  cases htab : Iterm.tabCmds scope with
  | error e => rw [htab] at h; cases h
  | ok tab =>
      rw [htab] at h
      cases hfg : Iterm.renderStyleCmds scope "foreground" "fg" with
      | error e => rw [hfg] at h; cases h
      | ok fg =>
          rw [hfg] at h
          cases hbg : Iterm.renderStyleCmds scope "background" "bg" with
          | error e => rw [hbg] at h; cases h
          | ok bg =>
              rw [hbg] at h
              cases hcur : Iterm.cursorCmds scope with
              | error e => rw [hcur] at h; cases h
              | ok cur =>
                  rw [hcur] at h
                  cases h
                  exact ⟨tab, fg, bg, cur, rfl, rfl, rfl, rfl, rfl⟩

theorem cursorCmds_ok_parts (scope : Scope) (cur : List String)
    (h : Iterm.cursorCmds scope = .ok cur) :
    ∃ shape color,
      Iterm.cursorShapeCmds scope = .ok shape ∧
      Iterm.renderStyleCmds scope "cursor" "curbg" = .ok color ∧
      cur = shape ++ color := by
  unfold Iterm.cursorCmds at h
  cases hs : Iterm.cursorShapeCmds scope with
  | error e => rw [hs] at h; cases h
  | ok shape =>
      rw [hs] at h
      cases hc : Iterm.renderStyleCmds scope "cursor" "curbg" with
      | error e => rw [hc] at h; cases h
      | ok color =>
          rw [hc] at h
          cases h
          exact ⟨shape, color, rfl, rfl, rfl⟩

theorem cursor_outside_set (str : String)
    (h : ¬(str ∈ recognizedCursorValues)) :
    Iterm.pyEqStr (.str str) "profile" = false ∧
    Iterm.cursorInMap (.str str) = .ok none := by
  simp only [recognizedCursorValues, List.mem_cons, List.not_mem_nil,
    or_false, not_or] at h
  obtain ⟨h1, h2, h3, h4, h5, h6, h7, h8⟩ := h
  constructor
  · simp [Iterm.pyEqStr, h1]
  · have hl : Iterm.CURSOR_MAP.lookup str = none := by
      simp only [Iterm.CURSOR_MAP, List.lookup]
      rw [show (str == "block") = false from beq_eq_false_iff_ne.mpr h2]
      rw [show (str == "box") = false from beq_eq_false_iff_ne.mpr h3]
      rw [show (str == "vertical_bar") = false from beq_eq_false_iff_ne.mpr h4]
      rw [show (str == "vertical") = false from beq_eq_false_iff_ne.mpr h5]
      rw [show (str == "bar") = false from beq_eq_false_iff_ne.mpr h6]
      rw [show (str == "pipe") = false from beq_eq_false_iff_ne.mpr h7]
      rw [show (str == "underline") = false from beq_eq_false_iff_ne.mpr h8]
    simp [Iterm.cursorInMap, hl]

/-- C8 counterexample: the empty string is outside the recognized cursor
value set, yet the agent succeeds silently instead of failing with a
SyntaxError — Python's `if cursor:` skips every falsy value. -/
theorem claim_C8_counterexample :
    ¬("" ∈ recognizedCursorValues) ∧
    Iterm.run ⟨"s8", [("cursor", .str "")], []⟩ = .ok "" :=
  ⟨by decide, rfl⟩

/-- C8 as amended: `cursor = "vertical"` contributes a `CursorShape=1`
command and `cursor = "profile"` the raw restore-default escape to any
successful run; every truthy *hashable* value failing both the
`profile` test and the alias membership — which covers every non-empty
string outside the recognized set, and every true boolean or nonzero
integer — aborts the agent with a SyntaxError naming the value and the
scope (provided the earlier style steps succeed); a truthy *table*
value instead dies in the membership test itself with an unhandled
`TypeError`, which is not the spec's SyntaxError; a falsy value such as
the empty string is skipped exactly like an absent key. -/
theorem claim_C8_cursor_validation :
    (∀ (scope : Scope) (out : List String),
      scope.lookupDef "cursor" = some (.str "vertical") →
      Iterm.runList scope = .ok out →
      "builtin echo -en \"\\e]1337;CursorShape=1\\a\"" ∈ out) ∧
    (∀ (scope : Scope) (out : List String),
      scope.lookupDef "cursor" = some (.str "profile") →
      Iterm.runList scope = .ok out →
      "builtin echo -en \"\\e[0q\"" ∈ out) ∧
    (∀ (scope : Scope) (v : ConfigValue) (tab fg bg : List String),
      scope.lookupDef "cursor" = some v → v.truthy = true →
      Iterm.pyEqStr v "profile" = false → Iterm.cursorInMap v = .ok none →
      Iterm.tabCmds scope = .ok tab →
      Iterm.renderStyleCmds scope "foreground" "fg" = .ok fg →
      Iterm.renderStyleCmds scope "background" "bg" = .ok bg →
      Iterm.runList scope = .error (.dyeSyntaxError
        ("unknown cursor '" ++ v.toStr ++ "' while processing scope '" ++
          scope.toStr ++ "'"))) ∧
    (∀ (scope : Scope) (kvs : List (String × ConfigValue)) (tab fg bg : List String),
      scope.lookupDef "cursor" = some (.table kvs) →
      (ConfigValue.table kvs).truthy = true →
      Iterm.tabCmds scope = .ok tab →
      Iterm.renderStyleCmds scope "foreground" "fg" = .ok fg →
      Iterm.renderStyleCmds scope "background" "bg" = .ok bg →
      Iterm.runList scope = .error .typeError) ∧
    DyeFailure.isSpecSyntaxError .typeError = false ∧
    (∀ (scope : Scope) (v : ConfigValue),
      scope.lookupDef "cursor" = some v → v.truthy = false →
      Iterm.cursorCmds scope = Iterm.renderStyleCmds scope "cursor" "curbg") ∧
    (∀ scope : Scope, scope.lookupDef "cursor" = none →
      Iterm.cursorCmds scope = Iterm.renderStyleCmds scope "cursor" "curbg") ∧
    (∀ str : String, ¬(str ∈ recognizedCursorValues) →
      Iterm.pyEqStr (.str str) "profile" = false ∧
      Iterm.cursorInMap (.str str) = .ok none) := by
  refine ⟨?_, ?_, ?_, ?_, rfl, ?_, ?_, cursor_outside_set⟩
  · intro scope out hc hrun
    rcases runList_ok_parts scope out hrun with ⟨tab, fg, bg, cur, _, _, _, hcur, rfl⟩
    rcases cursorCmds_ok_parts scope cur hcur with ⟨shape, color, hs, _, rfl⟩
    have hshape : shape = ["builtin echo -en \"\\e]1337;CursorShape=1\\a\""] := by
      simp [Iterm.cursorShapeCmds, hc, ConfigValue.truthy, Iterm.pyEqStr,
        Iterm.cursorInMap, Iterm.CURSOR_MAP, List.lookup] at hs
      exact hs.symm
    subst hshape
    simp
  · intro scope out hc hrun
    rcases runList_ok_parts scope out hrun with ⟨tab, fg, bg, cur, _, _, _, hcur, rfl⟩
    rcases cursorCmds_ok_parts scope cur hcur with ⟨shape, color, hs, _, rfl⟩
    have hshape : shape = ["builtin echo -en \"\\e[0q\""] := by
      simp [Iterm.cursorShapeCmds, hc, ConfigValue.truthy, Iterm.pyEqStr] at hs
      exact hs.symm
    subst hshape
    simp
  · intro scope v tab fg bg hc htr hpy hlk htab hfg hbg
    have hshape : Iterm.cursorShapeCmds scope = .error (.dyeSyntaxError
        ("unknown cursor '" ++ v.toStr ++ "' while processing scope '" ++
          scope.toStr ++ "'")) := by
      simp [Iterm.cursorShapeCmds, hc, htr, hpy, hlk]
    simp [Iterm.runList, Iterm.cursorCmds, htab, hfg, hbg, hshape]
  · intro scope kvs tab fg bg hc htr htab hfg hbg
    have hshape : Iterm.cursorShapeCmds scope = .error .typeError := by
      simp [Iterm.cursorShapeCmds, hc, htr, Iterm.pyEqStr, Iterm.cursorInMap]
    simp [Iterm.runList, Iterm.cursorCmds, htab, hfg, hbg, hshape]
  · intro scope v hc htr
    have hshape : Iterm.cursorShapeCmds scope = .ok [] := by
      simp [Iterm.cursorShapeCmds, hc, htr]
    cases h2 : Iterm.renderStyleCmds scope "cursor" "curbg" with
    | error e => simp [Iterm.cursorCmds, hshape, h2]
    | ok l => simp [Iterm.cursorCmds, hshape, h2]
  · intro scope hc
    have hshape : Iterm.cursorShapeCmds scope = .ok [] := by
      simp [Iterm.cursorShapeCmds, hc]
    cases h2 : Iterm.renderStyleCmds scope "cursor" "curbg" with
    | error e => simp [Iterm.cursorCmds, hshape, h2]
    | ok l => simp [Iterm.cursorCmds, hshape, h2]

/-- Witness for C8's amended claim at concrete inputs: `vertical`,
`profile`, the invalid string `triangle`, a table value, and an absent
key. -/
theorem claim_C8_witness :
    "builtin echo -en \"\\e]1337;CursorShape=1\\a\"" ∈
      ["builtin echo -en \"\\e]1337;CursorShape=1\\a\""] ∧
    "builtin echo -en \"\\e[0q\"" ∈ ["builtin echo -en \"\\e[0q\""] ∧
    Iterm.runList ⟨"s", [("cursor", .str "triangle")], []⟩ =
      .error (.dyeSyntaxError
        ("unknown cursor '" ++ "triangle" ++ "' while processing scope '" ++
          "s" ++ "'")) ∧
    Iterm.runList ⟨"s", [("cursor", .table [("shape", .str "block")])], []⟩ =
      .error .typeError ∧
    Iterm.cursorCmds ⟨"s", [], []⟩ =
      Iterm.renderStyleCmds ⟨"s", [], []⟩ "cursor" "curbg" := by
  refine ⟨?_, ?_, ?_, ?_, ?_⟩
  · exact claim_C8_cursor_validation.1 ⟨"s", [("cursor", .str "vertical")], []⟩
      ["builtin echo -en \"\\e]1337;CursorShape=1\\a\""] rfl rfl
  · exact claim_C8_cursor_validation.2.1 ⟨"s", [("cursor", .str "profile")], []⟩
      ["builtin echo -en \"\\e[0q\""] rfl rfl
  · exact claim_C8_cursor_validation.2.2.1
      ⟨"s", [("cursor", .str "triangle")], []⟩ (.str "triangle") [] [] []
      rfl rfl rfl rfl rfl rfl rfl
  · exact claim_C8_cursor_validation.2.2.2.1
      ⟨"s", [("cursor", .table [("shape", .str "block")])], []⟩
      [("shape", .str "block")] [] [] [] rfl rfl rfl rfl rfl
  · exact claim_C8_cursor_validation.2.2.2.2.2.2.1 ⟨"s", [], []⟩ rfl

end Dye
